import Mathlib

/-!
Shallow embedding of the CAD viewer core (`src/render/viewer.ts` and the
measurement computation of `src/ui/App.tsx`).

Vectors, planes and boxes mirror the THREE.js types used by the source
(`Vector3`, `Plane`, `Box3`); the viewer's mutable closure state is one
record `ViewerState`, and each public operation of `createViewer` becomes a
pure state transformer.  Floating-point numbers are modelled as real
numbers.  Rendering (`renderer.render`, `toDataURL`) does not change any of
the modelled state, so the snapshot operations are modelled by the state
they leave behind.
-/

namespace CadViewer

open Classical

/-- Three-component vector, mirroring `THREE.Vector3`. -/
@[ext]
structure Vec3 where
  x : ℝ
  y : ℝ
  z : ℝ

/-- Componentwise addition (`Vector3.add` / `addVectors`). -/
def Vec3.add (a b : Vec3) : Vec3 := ⟨a.x + b.x, a.y + b.y, a.z + b.z⟩

/-- Componentwise subtraction (`Vector3.sub` / `subVectors`). -/
def Vec3.sub (a b : Vec3) : Vec3 := ⟨a.x - b.x, a.y - b.y, a.z - b.z⟩

/-- Scalar multiplication (`Vector3.multiplyScalar`). -/
def Vec3.smul (a : Vec3) (k : ℝ) : Vec3 := ⟨k * a.x, k * a.y, k * a.z⟩

/-- Dot product (`Vector3.dot`). -/
def Vec3.dot (a b : Vec3) : ℝ := a.x * b.x + a.y * b.y + a.z * b.z

/-- Cross product (`Vector3.crossVectors`). -/
def Vec3.cross (a b : Vec3) : Vec3 :=
  ⟨a.y * b.z - a.z * b.y, a.z * b.x - a.x * b.z, a.x * b.y - a.y * b.x⟩

/-- Euclidean length (`Vector3.length`). -/
noncomputable def Vec3.length (a : Vec3) : ℝ :=
  Real.sqrt (a.x * a.x + a.y * a.y + a.z * a.z)

/-- Distance between two points (`Vector3.distanceTo`). -/
noncomputable def Vec3.distanceTo (a b : Vec3) : ℝ := (a.sub b).length

/-- Normalization (`Vector3.normalize`), which divides by `length() || 1`:
a zero-length vector is left unchanged. -/
noncomputable def Vec3.normalize (a : Vec3) : Vec3 :=
  a.smul (1 / (if a.length = 0 then 1 else a.length))

/-- Linear interpolation, `THREE.MathUtils.lerp(x, y, t) = (1 - t) * x + t * y`. -/
def lerp (a b t : ℝ) : ℝ := (1 - t) * a + t * b

/-- Plane in Hessian form, mirroring `THREE.Plane {normal, constant}`. -/
structure Plane where
  normal : Vec3
  constant : ℝ

/-- Signed distance of a point to a plane (`Plane.distanceToPoint`):
`normal · p + constant`. -/
def Plane.distanceToPoint (pl : Plane) (p : Vec3) : ℝ :=
  pl.normal.dot p + pl.constant

/-- Axis tag of a section plane (`type SectionAxis = 'x' | 'y' | 'z'`). -/
inductive SectionAxis
  | x
  | y
  | z
deriving DecidableEq

/-- Coordinate of a vector along a section axis. -/
def axisCoord (v : Vec3) : SectionAxis → ℝ
  | .x => v.x
  | .y => v.y
  | .z => v.z

/-- Replace the coordinate of a vector along one axis (the source writes
`target.x = lerp(...)` on a copy of the center). -/
def setAxisCoord (v : Vec3) (a : SectionAxis) (r : ℝ) : Vec3 :=
  match a with
  | .x => ⟨r, v.y, v.z⟩
  | .y => ⟨v.x, r, v.z⟩
  | .z => ⟨v.x, v.y, r⟩

/-- Unit normal vector of each section axis, as fixed by `createViewer`
when it builds `sectionPlanes`. -/
def axisUnit : SectionAxis → Vec3
  | .x => ⟨1, 0, 0⟩
  | .y => ⟨0, 1, 0⟩
  | .z => ⟨0, 0, 1⟩

/-- Axis-aligned box, mirroring `THREE.Box3 {min, max}`. -/
structure Box3 where
  min : Vec3
  max : Vec3

/-- THREE.js `Box3.isEmpty()`: true when `max < min` on some axis (this is
the library's inverted-box convention; a degenerate `min = max` box is not
empty). -/
def Box3.isEmpty (b : Box3) : Prop :=
  b.max.x < b.min.x ∨ b.max.y < b.min.y ∨ b.max.z < b.min.z

/-- THREE.js `Box3.getSize()`: `max - min`, or zero for an empty box. -/
noncomputable def Box3.getSize (b : Box3) : Vec3 :=
  if b.isEmpty then ⟨0, 0, 0⟩ else b.max.sub b.min

/-- THREE.js `Box3.getCenter()`: the midpoint, or zero for an empty box. -/
noncomputable def Box3.getCenter (b : Box3) : Vec3 :=
  if b.isEmpty then ⟨0, 0, 0⟩ else (b.min.add b.max).smul 0.5

/-- The `sectionBounds` record of `viewer.ts` (`{min, max, center}`). -/
structure BoundsState where
  min : Vec3
  max : Vec3
  center : Vec3

/-- Clipping-relevant material state of one mesh under `modelRoot`.  The
source stores `material.clippingPlanes = active` where `active` holds
references to the shared `sectionPlanes` objects; the reference semantics
is modelled by storing the list of axes and resolving them through the
current viewer state. -/
structure ModelMesh where
  clippingAxes : List SectionAxis
  clipIntersection : Bool

/-- Visual translucent quad of one section plane (`sectionPlaneMeshes`). -/
structure MeshVisual where
  position : Vec3
  width : ℝ
  height : ℝ
  visible : Bool

/-- The measurement line object (`measureLine`): its two endpoint
positions and render order. -/
structure LineMesh where
  p1 : Vec3
  p2 : Vec3
  renderOrder : ℕ

/-- One filled triangular arrowhead (`measureArrow1` / `measureArrow2`):
its three vertex positions and render order. -/
structure ArrowMesh where
  tip : Vec3
  wingA : Vec3
  wingB : Vec3
  renderOrder : ℕ

/-- The measurement label sprite (`measureLabel`): position, sprite scale,
rasterized text, material color and render order. -/
structure LabelSprite where
  position : Vec3
  scaleX : ℝ
  scaleY : ℝ
  text : String
  color : ℕ
  renderOrder : ℕ

/-- Which of the two cameras is `activeCamera`. -/
inductive CameraKind
  | persp
  | ortho
deriving DecidableEq

/-- The mutable closure state of `createViewer`. -/
structure ViewerState where
  perspPos : Vec3
  perspFov : ℝ
  perspNear : ℝ
  perspFar : ℝ
  orthoPos : Vec3
  orthoLeft : ℝ
  orthoRight : ℝ
  orthoTop : ℝ
  orthoBottom : ℝ
  orthoNear : ℝ
  orthoFar : ℝ
  orthoLookTarget : Vec3
  activeCamera : CameraKind
  controlsTarget : Vec3
  controlsUp : Vec3
  containerWidth : ℝ
  containerHeight : ℝ
  gridVisible : Bool
  axesVisible : Bool
  modelChildren : List ModelMesh
  modelRootPos : Vec3
  modelRootVisible : Bool
  sectionPlanes : SectionAxis → Plane
  sectionPlaneMeshes : SectionAxis → Option MeshVisual
  sectionEnabled : SectionAxis → Bool
  sectionPlanesVisible : Bool
  sectionBounds : BoundsState
  measureLine : Option LineMesh
  measureLabel : Option LabelSprite
  measureArrow1 : Option ArrowMesh
  measureArrow2 : Option ArrowMesh
  measureGraphicsScale : ℝ
  measureMaterialColor : ℕ
  arrowMaterialColor : ℕ
  clearColor : ℕ
  clearAlpha : ℝ
  background : Option ℕ
  edgesGroupInScene : Bool
  containerChildren : List ℕ
  animationLoopRunning : Bool
  resizeListenerInstalled : Bool
  rendererDisposed : Bool

/-- DOM id of the renderer's canvas element appended to the container. -/
def canvasElem : ℕ := 0

/-- State set up by `createViewer` for a container of the given size
(camera at `(250,180,250)`, fov 50, ortho height 200, grid and axes
visible, clear color `0x111827`, all sections disabled, unit bounds). -/
noncomputable def initialViewerState (w h : ℝ) : ViewerState :=
  let aspect := w / max 1 h
  { perspPos := ⟨250, 180, 250⟩
    perspFov := 50
    perspNear := 0.1
    perspFar := 10000
    orthoPos := ⟨250, 180, 250⟩
    orthoLeft := -(200 * aspect) / 2
    orthoRight := (200 * aspect) / 2
    orthoTop := 100
    orthoBottom := -100
    orthoNear := -10000
    orthoFar := 10000
    orthoLookTarget := ⟨0, 0, 0⟩
    activeCamera := .persp
    controlsTarget := ⟨0, 0, 0⟩
    controlsUp := ⟨0, 1, 0⟩
    containerWidth := w
    containerHeight := h
    gridVisible := true
    axesVisible := true
    modelChildren := []
    modelRootPos := ⟨0, 0, 0⟩
    modelRootVisible := true
    sectionPlanes := fun a =>
      match a with
      | .x => ⟨⟨1, 0, 0⟩, 0⟩
      | .y => ⟨⟨0, 1, 0⟩, 0⟩
      | .z => ⟨⟨0, 0, 1⟩, 0⟩
    sectionPlaneMeshes := fun _ => none
    sectionEnabled := fun _ => false
    sectionPlanesVisible := true
    sectionBounds := ⟨⟨-1, -1, -1⟩, ⟨1, 1, 1⟩, ⟨0, 0, 0⟩⟩
    measureLine := none
    measureLabel := none
    measureArrow1 := none
    measureArrow2 := none
    measureGraphicsScale := 1
    measureMaterialColor := 0xffffff
    arrowMaterialColor := 0xffffff
    clearColor := 0x111827
    clearAlpha := 1
    background := none
    edgesGroupInScene := false
    containerChildren := [canvasElem]
    animationLoopRunning := true
    resizeListenerInstalled := true
    rendererDisposed := false }

/-- Position of the `activeCamera`. -/
def activeCameraPos (s : ViewerState) : Vec3 :=
  match s.activeCamera with
  | .persp => s.perspPos
  | .ortho => s.orthoPos

/-- Write the position of the `activeCamera` (the source mutates whichever
camera object is active). -/
def setActiveCameraPos (s : ViewerState) (p : Vec3) : ViewerState :=
  match s.activeCamera with
  | .persp => { s with perspPos := p }
  | .ortho => { s with orthoPos := p }

/-- The axes whose sections are currently enabled, in the `['x','y','z']`
traversal order of `updateClippingPlanes`. -/
def activeAxes (s : ViewerState) : List SectionAxis :=
  [SectionAxis.x, SectionAxis.y, SectionAxis.z].filter (fun a => s.sectionEnabled a)

/-- `updateClippingPlanes` of `viewer.ts`: assigns the list of enabled
section planes to every model material and sets `clipIntersection = true`. -/
def updateClippingPlanes (s : ViewerState) : ViewerState :=
  { s with modelChildren :=
      s.modelChildren.map (fun m =>
        { m with clippingAxes := activeAxes s, clipIntersection := true }) }

/-- Clipping test of one material, modelled from the documented THREE.js
shader semantics (the library is an external dependency): a fragment at
`p` is discarded under `clipIntersection = false` when *some* assigned
plane has negative signed distance at `p`, and under
`clipIntersection = true` only when *all* assigned planes do; an empty
plane list never clips. -/
def materialClipsPoint (s : ViewerState) (m : ModelMesh) (p : Vec3) : Prop :=
  m.clippingAxes ≠ [] ∧
    (if m.clipIntersection then
        ∀ a ∈ m.clippingAxes, (s.sectionPlanes a).distanceToPoint p < 0
      else
        ∃ a ∈ m.clippingAxes, (s.sectionPlanes a).distanceToPoint p < 0)

/-- A point of the Model is rendered when no mesh material of the model
group clips it away. -/
def modelRendersPoint (s : ViewerState) (p : Vec3) : Prop :=
  ∀ m ∈ s.modelChildren, ¬ materialClipsPoint s m p

/-- The reading of the clipping claim: a point satisfies every enabled
section plane simultaneously (non-negative signed distance to each). -/
def satisfiesAllEnabledPlanes (s : ViewerState) (p : Vec3) : Prop :=
  ∀ a : SectionAxis, s.sectionEnabled a = true →
    0 ≤ (s.sectionPlanes a).distanceToPoint p

/-- `setSectionEnabled(axis, enabled)` of `viewer.ts`. -/
def setSectionEnabled (axis : SectionAxis) (enabled : Bool) (s : ViewerState) :
    ViewerState :=
  let s1 := { s with sectionEnabled := fun a =>
    if a = axis then enabled else s.sectionEnabled a }
  let s2 :=
    match s1.sectionPlaneMeshes axis with
    | some mesh =>
        { s1 with sectionPlaneMeshes := fun a =>
            if a = axis then some { mesh with visible := enabled && s1.sectionPlanesVisible }
            else s1.sectionPlaneMeshes a }
    | none => s1
  updateClippingPlanes s2

/-- `setSectionOffset(axis, t)` of `viewer.ts`: moves the clipping plane so
it passes through the point obtained from `sectionBounds.center` by
replacing the coordinate along `axis` with `lerp(min, max, t)`, and offsets
the visual quad slightly along the normal. -/
def setSectionOffset (axis : SectionAxis) (t : ℝ) (s : ViewerState) : ViewerState :=
  let plane := s.sectionPlanes axis
  let normal := plane.normal
  let mn := s.sectionBounds.min
  let mx := s.sectionBounds.max
  let target := setAxisCoord s.sectionBounds.center axis
    (lerp (axisCoord mn axis) (axisCoord mx axis) t)
  let plane' : Plane := { plane with constant := -(normal.dot target) }
  let base := { s with sectionPlanes := fun a =>
    if a = axis then plane' else s.sectionPlanes a }
  match s.sectionPlaneMeshes axis with
  | none => base
  | some mesh =>
      let size := mx.sub mn
      let axisSize := axisCoord size axis
      let visualOffset := max (axisSize * 0.02) 1
      let meshPos := target.add (normal.smul visualOffset)
      { base with sectionPlaneMeshes := fun a =>
          if a = axis then some { mesh with position := meshPos }
          else s.sectionPlaneMeshes a }

/-- `setSectionPlanesVisible(visible)` of `viewer.ts`. -/
def setSectionPlanesVisible (visible : Bool) (s : ViewerState) : ViewerState :=
  { s with sectionPlanesVisible := visible
           sectionPlaneMeshes := fun a =>
             (s.sectionPlaneMeshes a).map
               (fun m => { m with visible := s.sectionEnabled a && visible }) }

/-- `resetSectionPlanes()` of `viewer.ts`: disables all three axes, hides
their quads, and recomputes the clipping set. -/
def resetSectionPlanes (s : ViewerState) : ViewerState :=
  updateClippingPlanes
    { s with sectionEnabled := fun _ => false
             sectionPlaneMeshes := fun a =>
               (s.sectionPlaneMeshes a).map (fun m => { m with visible := false }) }

/-- `fitCameraToBox(box, padding)` of `viewer.ts`. -/
noncomputable def fitCameraToBox (box : Box3) (padding : ℝ) (s : ViewerState) :
    ViewerState :=
  if box.isEmpty then s
  else
    let size := box.getSize
    let center := box.getCenter
    let maxDim := max (max size.x size.y) size.z
    let fov := s.perspFov * Real.pi / 180
    let distance := maxDim / 2 / Real.tan (fov / 2) * padding
    let dirVec := (Vec3.normalize ⟨1, 0.8, 1⟩).smul distance
    let newPos := center.add dirVec
    let half := maxDim * padding / 2
    let aspect := s.containerWidth / max 1 s.containerHeight
    { s with
      perspPos := newPos
      perspNear := max 0.1 (distance * 0.01)
      perspFar := distance * 100 + maxDim
      orthoLeft := -half * aspect
      orthoRight := half * aspect
      orthoTop := half
      orthoBottom := -half
      orthoNear := -10000
      orthoFar := 10000
      orthoPos := newPos
      orthoLookTarget := center
      controlsTarget := center }

/-- View presets accepted by `setView`. -/
inductive ViewPreset
  | top
  | front
  | right
  | iso
deriving DecidableEq

/-- `setView(preset)` of `viewer.ts`: repositions the active camera around
`controls.target` at the current distance for the axis presets, and at
`target + (dist, dist*0.6, dist)` for `iso`; sets `controls.up` to
`(0,1,0)`. -/
noncomputable def setView (preset : ViewPreset) (s : ViewerState) : ViewerState :=
  let target := s.controlsTarget
  let dist := (activeCameraPos s).distanceTo target
  let pos :=
    match preset with
    | .top => target.add ⟨0, dist, 0⟩
    | .front => target.add ⟨0, 0, dist⟩
    | .right => target.add ⟨dist, 0, 0⟩
    | .iso => target.add ⟨dist, dist * 0.6, dist⟩
  let s1 := setActiveCameraPos s pos
  { s1 with controlsUp := ⟨0, 1, 0⟩ }

/-- `setProjection(mode)` of `viewer.ts`. -/
def setProjection (mode : CameraKind) (s : ViewerState) : ViewerState :=
  { s with activeCamera := mode }

/-- `clear()` of `viewer.ts`: `modelRoot.clear(); modelRoot.position.set(0,0,0)`. -/
def clear (s : ViewerState) : ViewerState :=
  { s with modelChildren := []
           modelRootPos := ⟨0, 0, 0⟩ }

/-- `setMeasurementGraphicsScale(scale)` of `viewer.ts`: stores the value
clamped to `[0.1, 4]` and, when a label sprite exists, rescales it. -/
def setMeasurementGraphicsScale (scale : ℝ) (s : ViewerState) : ViewerState :=
  let g := max 0.1 (min scale 4)
  { s with measureGraphicsScale := g
           measureLabel := s.measureLabel.map
             (fun l => { l with scaleX := 0.4 * g, scaleY := 0.2 * g }) }

/-- Removal branch shared by the `p1 === null || p2 === null` and
`len === 0` cases of `setMeasurementSegment`: releases the line, the label
and both arrowheads. -/
def clearMeasurementObjects (s : ViewerState) : ViewerState :=
  { s with measureLine := none
           measureLabel := none
           measureArrow1 := none
           measureArrow2 := none }

/-- `setMeasurementSegment(p1, p2, labelText)` of `viewer.ts`. -/
noncomputable def setMeasurementSegment (p1? p2? : Option Vec3)
    (labelText? : Option String) (s : ViewerState) : ViewerState :=
  match p1?, p2? with
  | some p1, some p2 =>
      let dirRaw := p2.sub p1
      let len := dirRaw.length
      if len = 0 then clearMeasurementObjects s
      else
        let dir := dirRaw.normalize
        let mid := (p1.add p2).smul 0.5
        let viewDir := ((activeCameraPos s).sub mid).normalize
        let overlayOffset := viewDir.smul (len * 0.02 + 2 * s.measureGraphicsScale)
        let p1o := p1.add overlayOffset
        let p2o := p2.add overlayOffset
        let line : LineMesh := ⟨p1o, p2o, 999⟩
        let up : Vec3 := if 0.9 < |dir.dot ⟨0, 1, 0⟩| then ⟨1, 0, 0⟩ else ⟨0, 1, 0⟩
        let side := (dir.cross up).normalize
        let arrowLength := max (len * 0.07) (5 * s.measureGraphicsScale)
        let arrowHalfWidth := arrowLength * 0.4
        let base1 := p1o.add (dir.smul arrowLength)
        let arrow1 : ArrowMesh :=
          ⟨p1o, base1.add (side.smul arrowHalfWidth),
            base1.sub (side.smul arrowHalfWidth), 999⟩
        let base2 := p2o.add (dir.smul (-arrowLength))
        let arrow2 : ArrowMesh :=
          ⟨p2o, base2.add (side.smul arrowHalfWidth),
            base2.sub (side.smul arrowHalfWidth), 999⟩
        let midOffset := (p1o.add p2o).smul 0.5
        let offsetDir : Vec3 :=
          if 0.9 < |dir.dot ⟨0, 1, 0⟩| then ⟨1, 0, 0⟩ else ⟨0, 1, 0⟩
        let offsetAmount := max (len * 0.03) (5 * s.measureGraphicsScale)
        let labelPos := midOffset.add (offsetDir.normalize.smul offsetAmount)
        match labelText? with
        | none =>
            { s with measureLine := some line
                     measureArrow1 := some arrow1
                     measureArrow2 := some arrow2
                     measureLabel := none }
        | some text =>
            { s with measureLine := some line
                     measureArrow1 := some arrow1
                     measureArrow2 := some arrow2
                     measureLabel := some
                       ⟨labelPos, 0.4 * s.measureGraphicsScale,
                         0.2 * s.measureGraphicsScale, text, 0xffffff, 1000⟩ }
  | _, _ => clearMeasurementObjects s

/-- `getScreenshotDataURL()` of `viewer.ts`, as the state it leaves behind:
grid and axes visibility are saved, forced off for the captured render,
and restored. -/
def getScreenshotDataURL (s : ViewerState) : ViewerState :=
  let prevGridVisible := s.gridVisible
  let prevAxesVisible := s.axesVisible
  let s1 := { s with gridVisible := false, axesVisible := false }
  { s1 with gridVisible := prevGridVisible, axesVisible := prevAxesVisible }

/-- `getOutlineSnapshotDataURL()` of `viewer.ts`, as the state it leaves
behind: overlay visibility, overlay colors, clear color, background and
model visibility are saved and restored around one render of a transient
edges group. -/
def getOutlineSnapshotDataURL (s : ViewerState) : ViewerState :=
  let prevGridVisible := s.gridVisible
  let prevAxesVisible := s.axesVisible
  let prevLineColor := s.measureMaterialColor
  let prevArrowColor := s.arrowMaterialColor
  let prevLabelColor : Option ℕ := s.measureLabel.map (fun l => l.color)
  let s1 := { s with gridVisible := false, axesVisible := false }
  let s2 := { s1 with
    measureMaterialColor := 0x000000
    arrowMaterialColor := 0x000000
    measureLabel := s1.measureLabel.map
      (fun l : LabelSprite => { l with color := 0x000000 }) }
  let prevClearColor := s2.clearColor
  let prevClearAlpha := s2.clearAlpha
  let prevBackground := s2.background
  let prevModelVisible := s2.modelRootVisible
  let s3 := { s2 with edgesGroupInScene := true }
  let s4 := { s3 with modelRootVisible := false }
  let s5 := { s4 with clearColor := 0xffffff, clearAlpha := 1, background := none }
  let s6 := { s5 with edgesGroupInScene := false }
  let s7 := { s6 with
    modelRootVisible := prevModelVisible
    clearColor := prevClearColor
    clearAlpha := prevClearAlpha
    background := prevBackground }
  let s8 := { s7 with
    measureMaterialColor := prevLineColor
    arrowMaterialColor := prevArrowColor
    measureLabel :=
      match s7.measureLabel, prevLabelColor with
      | some l, some c => some { l with color := c }
      | other, _ => other }
  { s8 with gridVisible := prevGridVisible, axesVisible := prevAxesVisible }

/-- `dispose()` of `viewer.ts`.  `window.removeEventListener` and
`renderer.dispose()` never throw, but `container.removeChild` throws a DOM
`NotFoundError` when the canvas is not currently a child of the container. -/
def dispose (s : ViewerState) : Except String ViewerState :=
  let s1 := { s with resizeListenerInstalled := false }
  let s2 := { s1 with animationLoopRunning := false }
  let s3 := { s2 with rendererDisposed := true }
  if canvasElem ∈ s3.containerChildren then
    .ok { s3 with containerChildren := s3.containerChildren.erase canvasElem }
  else
    .error "NotFoundError"

/-- Measurement modes of the App UI (`measureType`). -/
inductive MeasureType
  | free
  | x
  | y
  | z
  | diameter
  | radius
deriving DecidableEq

/-- Result of the second-pick measurement computation of
`handleViewportClick` in `App.tsx`: the measured scalar, the displayed
segment endpoints and the label text before the value. -/
structure MeasureOut where
  measured : ℝ
  segP1 : Vec3
  segP2 : Vec3
  preText : String

/-- Second-pick branch of `handleViewportClick` in `App.tsx`: from the two
raw picked points and the measurement mode, computes the measured scalar
and the displayed segment. -/
noncomputable def secondPickMeasurement (mt : MeasureType) (p1 p2 : Vec3) :
    MeasureOut :=
  let dx := p2.x - p1.x
  let dy := p2.y - p1.y
  let dz := p2.z - p1.z
  let len := Real.sqrt (dx * dx + dy * dy + dz * dz)
  let mid := (p1.add p2).smul 0.5
  match mt with
  | .free => ⟨len, p1, p2, ""⟩
  | .x => ⟨|dx|, ⟨p1.x, mid.y, mid.z⟩, ⟨p2.x, mid.y, mid.z⟩, "X "⟩
  | .y => ⟨|dy|, ⟨mid.x, p1.y, mid.z⟩, ⟨mid.x, p2.y, mid.z⟩, "Y "⟩
  | .z => ⟨|dz|, ⟨mid.x, mid.y, p1.z⟩, ⟨mid.x, mid.y, p2.z⟩, "Z "⟩
  | .diameter => ⟨len, p1, p2, "⌀ "⟩
  | .radius => ⟨len / 2, mid, p1, "R "⟩

/-! ## Helper lemmas -/

/-- Square-root evaluation helper: `√a = b` once `b * b = a` and `0 ≤ b`. -/
theorem sqrt_of_sq {a b : ℝ} (hb : 0 ≤ b) (h : b * b = a) : Real.sqrt a = b := by
  subst h
  exact Real.sqrt_mul_self hb

/-! ## Claims -/

/-- C10: `clear()` empties the model group and resets its position to the
origin, and changes nothing else: the section enabled flags, the clipping
planes, the section quads, the stored section bounds, the global
planes-visible flag, both cameras' parameters, the orbit target and any
displayed measurement overlay (line, arrowheads, label) keep their
pre-call values — in particular `clear` neither resets the section planes
nor refits the camera, unlike `loadMeshFromGeometry`. -/
theorem clear_only_empties_model_group (s : ViewerState) :
    (clear s).modelChildren = [] ∧
    (clear s).modelRootPos = (⟨0, 0, 0⟩ : Vec3) ∧
    (clear s).sectionEnabled = s.sectionEnabled ∧
    (clear s).sectionPlanes = s.sectionPlanes ∧
    (clear s).sectionPlaneMeshes = s.sectionPlaneMeshes ∧
    (clear s).sectionPlanesVisible = s.sectionPlanesVisible ∧
    (clear s).sectionBounds = s.sectionBounds ∧
    (clear s).perspPos = s.perspPos ∧
    (clear s).perspFov = s.perspFov ∧
    (clear s).perspNear = s.perspNear ∧
    (clear s).perspFar = s.perspFar ∧
    (clear s).orthoPos = s.orthoPos ∧
    (clear s).orthoLeft = s.orthoLeft ∧
    (clear s).orthoRight = s.orthoRight ∧
    (clear s).orthoTop = s.orthoTop ∧
    (clear s).orthoBottom = s.orthoBottom ∧
    (clear s).controlsTarget = s.controlsTarget ∧
    (clear s).measureLine = s.measureLine ∧
    (clear s).measureArrow1 = s.measureArrow1 ∧
    (clear s).measureArrow2 = s.measureArrow2 ∧
    (clear s).measureLabel = s.measureLabel ∧
    (clear s).measureGraphicsScale = s.measureGraphicsScale := by
  simp [clear]

/-- C9: the code contradicts the no-throw contract of disposal: the first
`dispose()` removes the canvas from the container, so the second call's
`container.removeChild(renderer.domElement)` throws a DOM `NotFoundError`
instead of completing. -/
theorem dispose_twice_throws_NotFoundError :
    ((dispose (initialViewerState 800 600)).bind dispose)
      = Except.error "NotFoundError" := by
  simp [dispose, initialViewerState, canvasElem, Except.bind]

/-- C6: `getScreenshotDataURL()` and `getOutlineSnapshotDataURL()` leave
the grid visibility, axes visibility, measurement-overlay state and Model
visibility exactly at their pre-call values; the outline snapshot also
restores the background, the clear color and the overlay colors, and its
synthesized edge geometry is gone when the call returns (the whole
post-call state equals the pre-call state, except that the transient
edges group is guaranteed absent). -/
theorem snapshots_restore_all_visual_state (s : ViewerState) :
    getScreenshotDataURL s = s ∧
    getOutlineSnapshotDataURL s = { s with edgesGroupInScene := false } := by
  refine ⟨rfl, ?_⟩
  cases h : s.measureLabel with
  | none => simp [getOutlineSnapshotDataURL, h]
  | some l => simp [getOutlineSnapshotDataURL, h]

/-- C4: `setSectionOffset(axis, t)` (for `t ∈ [0,1]`, given the viewer's
invariant that the plane's normal is the fixed unit axis vector) keeps the
normal unchanged and zeroes the plane's signed distance at every point
whose coordinate along the axis is `lerp(min, max, t)`; in particular
`t = 0` places the cut at `BoundingBox.min` along that axis, `t = 1` at
`.max`, and `t = 1/2` at the midpoint. -/
theorem setSectionOffset_plane_through_lerp_anchor (s : ViewerState)
    (axis : SectionAxis) (t : ℝ)
    (hn : (s.sectionPlanes axis).normal = axisUnit axis)
    (h0 : 0 ≤ t) (h1 : t ≤ 1) :
    ((setSectionOffset axis t s).sectionPlanes axis).normal
        = (s.sectionPlanes axis).normal ∧
    (∀ p : Vec3,
        axisCoord p axis
            = lerp (axisCoord s.sectionBounds.min axis)
                (axisCoord s.sectionBounds.max axis) t →
        ((setSectionOffset axis t s).sectionPlanes axis).distanceToPoint p = 0) ∧
    (t = 0 →
      ((setSectionOffset axis t s).sectionPlanes axis).distanceToPoint
          s.sectionBounds.min = 0) ∧
    (t = 1 →
      ((setSectionOffset axis t s).sectionPlanes axis).distanceToPoint
          s.sectionBounds.max = 0) ∧
    (t = 1 / 2 →
      ((setSectionOffset axis t s).sectionPlanes axis).distanceToPoint
          ((s.sectionBounds.min.add s.sectionBounds.max).smul (1 / 2)) = 0) := by
  have hmain : ∀ p : Vec3,
      axisCoord p axis
          = lerp (axisCoord s.sectionBounds.min axis)
              (axisCoord s.sectionBounds.max axis) t →
      ((setSectionOffset axis t s).sectionPlanes axis).distanceToPoint p = 0 := by
    intro p hp
    cases hm : s.sectionPlaneMeshes axis <;>
      cases axis <;>
        simp_all [setSectionOffset, Plane.distanceToPoint, axisUnit, Vec3.dot,
          setAxisCoord, axisCoord, lerp] <;>
        ring
  refine ⟨?_, hmain, ?_, ?_, ?_⟩
  · cases hm : s.sectionPlaneMeshes axis <;>
      simp [setSectionOffset, hm]
  · intro ht
    subst ht
    exact hmain s.sectionBounds.min (by cases axis <;> simp [lerp, axisCoord])
  · intro ht
    subst ht
    exact hmain s.sectionBounds.max (by cases axis <;> simp [lerp, axisCoord])
  · intro ht
    subst ht
    refine hmain _ ?_
    cases axis <;>
      simp [lerp, axisCoord, Vec3.add, Vec3.smul] <;> ring

/-- C4 witness: the theorem at the initial viewer state, axis `x`,
`t = 1/2`. -/
theorem setSectionOffset_plane_through_lerp_anchor_witness :
    ((setSectionOffset SectionAxis.x (1 / 2)
        (initialViewerState 800 600)).sectionPlanes SectionAxis.x).distanceToPoint
      (⟨0, 7, 3⟩ : Vec3) = 0 :=
  (setSectionOffset_plane_through_lerp_anchor (initialViewerState 800 600)
      SectionAxis.x (1 / 2) rfl (by norm_num) (by norm_num)).2.1
    ⟨0, 7, 3⟩ (by simp [initialViewerState, axisCoord, lerp]; norm_num)

/-- C5: measurement round-trip of `handleViewportClick` for the picked
points `p1 = (0,0,0)`, `p2 = (3,4,0)`: mode `free` reports 5.0 and
displays `p1–p2`; mode `x` reports 3.0 and displays the segment projected
onto the x-axis through the midpoint `(0,2,0)–(3,2,0)`; mode `radius`
reports 2.5 and displays the segment from the midpoint `(1.5,2,0)` to
`p1`. -/
theorem measurement_roundtrip_modes :
    (secondPickMeasurement .free ⟨0, 0, 0⟩ ⟨3, 4, 0⟩).measured = 5 ∧
    (secondPickMeasurement .free ⟨0, 0, 0⟩ ⟨3, 4, 0⟩).segP1 = (⟨0, 0, 0⟩ : Vec3) ∧
    (secondPickMeasurement .free ⟨0, 0, 0⟩ ⟨3, 4, 0⟩).segP2 = (⟨3, 4, 0⟩ : Vec3) ∧
    (secondPickMeasurement .x ⟨0, 0, 0⟩ ⟨3, 4, 0⟩).measured = 3 ∧
    (secondPickMeasurement .x ⟨0, 0, 0⟩ ⟨3, 4, 0⟩).segP1 = (⟨0, 2, 0⟩ : Vec3) ∧
    (secondPickMeasurement .x ⟨0, 0, 0⟩ ⟨3, 4, 0⟩).segP2 = (⟨3, 2, 0⟩ : Vec3) ∧
    (secondPickMeasurement .radius ⟨0, 0, 0⟩ ⟨3, 4, 0⟩).measured = 5 / 2 ∧
    (secondPickMeasurement .radius ⟨0, 0, 0⟩ ⟨3, 4, 0⟩).segP1 = (⟨3 / 2, 2, 0⟩ : Vec3) ∧
    (secondPickMeasurement .radius ⟨0, 0, 0⟩ ⟨3, 4, 0⟩).segP2 = (⟨0, 0, 0⟩ : Vec3) := by
  have h25 : Real.sqrt 25 = 5 := sqrt_of_sq (by norm_num) (by norm_num)
  refine ⟨?_, rfl, rfl, ?_, ?_, ?_, ?_, ?_, ?_⟩ <;>
    norm_num [secondPickMeasurement, h25, Vec3.add, Vec3.smul]

/-- C2: for every bounding box with positive volume (strict `min < max` on
all three axes), `fitCameraToBox` places the perspective camera at
`center + normalize(1, 0.8, 1) * d` with
`d = (maxDim/2) / tan(fov/2) * padding`, sets the orbit target to the
box's center, and re-fitting with the same box is exactly idempotent: the
whole viewer state (camera position, near/far, orthographic frustum,
orbit target) is unchanged by the second call. -/
theorem fitToBox_frames_and_is_idempotent (s : ViewerState) (box : Box3)
    (padding : ℝ)
    (hx : box.min.x < box.max.x) (hy : box.min.y < box.max.y)
    (hz : box.min.z < box.max.z) :
    (fitCameraToBox box padding s).perspPos
        = box.getCenter.add ((Vec3.normalize ⟨1, 0.8, 1⟩).smul
            (max (max box.getSize.x box.getSize.y) box.getSize.z / 2
              / Real.tan (s.perspFov * Real.pi / 180 / 2) * padding)) ∧
    (fitCameraToBox box padding s).controlsTarget = box.getCenter ∧
    fitCameraToBox box padding (fitCameraToBox box padding s)
        = fitCameraToBox box padding s := by
  have hne : ¬ box.isEmpty := by
    intro h
    rcases h with h | h | h <;> linarith
  refine ⟨?_, ?_, ?_⟩ <;> simp [fitCameraToBox, hne]

/-- C2 witness: the idempotence conjunct applied to the unit cube and the
initial viewer state. -/
theorem fitToBox_frames_and_is_idempotent_witness :
    fitCameraToBox ⟨⟨0, 0, 0⟩, ⟨1, 1, 1⟩⟩ (5 / 4)
        (fitCameraToBox ⟨⟨0, 0, 0⟩, ⟨1, 1, 1⟩⟩ (5 / 4) (initialViewerState 800 600))
      = fitCameraToBox ⟨⟨0, 0, 0⟩, ⟨1, 1, 1⟩⟩ (5 / 4) (initialViewerState 800 600) :=
  (fitToBox_frames_and_is_idempotent (initialViewerState 800 600)
      ⟨⟨0, 0, 0⟩, ⟨1, 1, 1⟩⟩ (5 / 4)
      (by norm_num) (by norm_num) (by norm_num)).2.2

/-- C7 counterexample: a zero-volume box with `min = max` (the degenerate
point box) is *not* empty for THREE.js's `Box3.isEmpty`, so
`fitCameraToBox` is not a no-op on it: it moves the perspective camera
from its initial position `(250, 180, 250)` to the box center `(0,0,0)`
(the framing distance degenerates to 0). -/
theorem fit_point_box_is_not_noop :
    (fitCameraToBox ⟨⟨0, 0, 0⟩, ⟨0, 0, 0⟩⟩ (5 / 4)
        (initialViewerState 800 600)).perspPos
      ≠ (initialViewerState 800 600).perspPos := by
  have hne : ¬ (Box3.isEmpty ⟨⟨0, 0, 0⟩, ⟨0, 0, 0⟩⟩) := by
    simp [Box3.isEmpty]
  norm_num [fitCameraToBox, hne, Box3.getCenter, Box3.getSize, Box3.isEmpty,
    initialViewerState, Vec3.add, Vec3.smul, Vec3.sub, Vec3.ext_iff]

/-- C7 amended: `fitCameraToBox` is a no-op (all viewer state unchanged,
and no exception is possible since the operation is total) exactly on
boxes that are empty in THREE.js's sense, i.e. with `max < min` on some
axis; a zero-volume box with `min = max` is processed normally. -/
theorem fitCameraToBox_noop_on_threejs_empty_box (s : ViewerState) (box : Box3)
    (padding : ℝ) (h : box.isEmpty) :
    fitCameraToBox box padding s = s := by
  simp [fitCameraToBox, h]

/-- C7 witness: the amended theorem at an inverted (THREE.js-empty) box. -/
theorem fitCameraToBox_noop_on_threejs_empty_box_witness :
    fitCameraToBox ⟨⟨1, 1, 1⟩, ⟨0, 0, 0⟩⟩ (5 / 4) (initialViewerState 800 600)
      = initialViewerState 800 600 :=
  fitCameraToBox_noop_on_threejs_empty_box (initialViewerState 800 600)
    ⟨⟨1, 1, 1⟩, ⟨0, 0, 0⟩⟩ (5 / 4) (Or.inl (by norm_num))

/-- Concrete viewer state for the `setView('iso')` counterexample: the
active (perspective) camera sits at `(5,0,0)`, distance 5 from the orbit
target at the origin. -/
noncomputable def isoCounterexampleState : ViewerState :=
  { initialViewerState 800 600 with perspPos := ⟨5, 0, 0⟩ }

/-- C3 counterexample: `setView('iso')` does not preserve the
camera-to-target distance.  From distance 5 the camera is placed at
`target + (5, 3, 5)`, at distance `√59 ≠ 5` from the target, because the
code offsets by `(dist, dist*0.6, dist)` without normalizing. -/
theorem setView_iso_changes_distance :
    (activeCameraPos (setView .iso isoCounterexampleState)).distanceTo
        isoCounterexampleState.controlsTarget
      ≠ (activeCameraPos isoCounterexampleState).distanceTo
          isoCounterexampleState.controlsTarget := by
  have h5 : (activeCameraPos isoCounterexampleState).distanceTo
      isoCounterexampleState.controlsTarget = 5 := by
    norm_num [isoCounterexampleState, initialViewerState, activeCameraPos,
      Vec3.distanceTo, Vec3.sub, Vec3.length]
    exact sqrt_of_sq (by norm_num) (by norm_num)
  have h25 : Real.sqrt 25 = 5 := sqrt_of_sq (by norm_num) (by norm_num)
  have h59 : (activeCameraPos (setView .iso isoCounterexampleState)).distanceTo
      isoCounterexampleState.controlsTarget = Real.sqrt 59 := by
    norm_num [setView, setActiveCameraPos, activeCameraPos, isoCounterexampleState,
      initialViewerState, Vec3.distanceTo, Vec3.sub, Vec3.add, Vec3.length, h25]
  rw [h5, h59]
  have : (5 : ℝ) < Real.sqrt 59 := by
    have h25 : Real.sqrt 25 = 5 := sqrt_of_sq (by norm_num) (by norm_num)
    calc (5 : ℝ) = Real.sqrt 25 := h25.symm
    _ < Real.sqrt 59 := Real.sqrt_lt_sqrt (by norm_num) (by norm_num)
  exact ne_of_gt this

/-- C3 amended: `setView(preset)` repositions the active camera around the
current orbit target with up-vector `(0,1,0)`; the presets `top`, `front`,
`right` place it along `+Y`, `+Z`, `+X` at exactly the pre-call distance
`d`, but `iso` places it at `target + (d, 0.6·d, d)` — an unnormalized
offset — so the distance after an `iso` call is `√2.36 · d`, not `d`. -/
theorem setView_presets_positions_and_distances (s : ViewerState) :
    activeCameraPos (setView .top s)
        = s.controlsTarget.add ⟨0, (activeCameraPos s).distanceTo s.controlsTarget, 0⟩ ∧
    activeCameraPos (setView .front s)
        = s.controlsTarget.add ⟨0, 0, (activeCameraPos s).distanceTo s.controlsTarget⟩ ∧
    activeCameraPos (setView .right s)
        = s.controlsTarget.add ⟨(activeCameraPos s).distanceTo s.controlsTarget, 0, 0⟩ ∧
    activeCameraPos (setView .iso s)
        = s.controlsTarget.add
            ⟨(activeCameraPos s).distanceTo s.controlsTarget,
              (activeCameraPos s).distanceTo s.controlsTarget * 0.6,
              (activeCameraPos s).distanceTo s.controlsTarget⟩ ∧
    (∀ preset : ViewPreset, (setView preset s).controlsUp = (⟨0, 1, 0⟩ : Vec3)) ∧
    (activeCameraPos (setView .top s)).distanceTo s.controlsTarget
        = (activeCameraPos s).distanceTo s.controlsTarget ∧
    (activeCameraPos (setView .front s)).distanceTo s.controlsTarget
        = (activeCameraPos s).distanceTo s.controlsTarget ∧
    (activeCameraPos (setView .right s)).distanceTo s.controlsTarget
        = (activeCameraPos s).distanceTo s.controlsTarget ∧
    (activeCameraPos (setView .iso s)).distanceTo s.controlsTarget
        = Real.sqrt 2.36 * (activeCameraPos s).distanceTo s.controlsTarget := by
  have hd : 0 ≤ (activeCameraPos s).distanceTo s.controlsTarget :=
    Real.sqrt_nonneg _
  set d := (activeCameraPos s).distanceTo s.controlsTarget with hdef
  have htop : activeCameraPos (setView .top s) = s.controlsTarget.add ⟨0, d, 0⟩ := by
    cases hc : s.activeCamera <;>
      simp [setView, setActiveCameraPos, activeCameraPos, hc, hdef]
  have hfront : activeCameraPos (setView .front s) = s.controlsTarget.add ⟨0, 0, d⟩ := by
    cases hc : s.activeCamera <;>
      simp [setView, setActiveCameraPos, activeCameraPos, hc, hdef]
  have hright : activeCameraPos (setView .right s) = s.controlsTarget.add ⟨d, 0, 0⟩ := by
    cases hc : s.activeCamera <;>
      simp [setView, setActiveCameraPos, activeCameraPos, hc, hdef]
  have hiso : activeCameraPos (setView .iso s)
      = s.controlsTarget.add ⟨d, d * 0.6, d⟩ := by
    cases hc : s.activeCamera <;>
      simp [setView, setActiveCameraPos, activeCameraPos, hc, hdef]
  have hup : ∀ preset : ViewPreset, (setView preset s).controlsUp = (⟨0, 1, 0⟩ : Vec3) := by
    intro preset
    cases hc : s.activeCamera <;> simp [setView, setActiveCameraPos, hc]
  have hlen : ∀ v : Vec3, (s.controlsTarget.add v).distanceTo s.controlsTarget
      = Real.sqrt (v.x * v.x + v.y * v.y + v.z * v.z) := by
    intro v
    simp [Vec3.distanceTo, Vec3.sub, Vec3.add, Vec3.length]
  refine ⟨htop, hfront, hright, hiso, hup, ?_, ?_, ?_, ?_⟩
  · rw [htop, hlen]
    simpa using Real.sqrt_mul_self hd
  · rw [hfront, hlen]
    simpa using Real.sqrt_mul_self hd
  · rw [hright, hlen]
    simpa using Real.sqrt_mul_self hd
  · rw [hiso, hlen]
    have harg : d * d + d * 0.6 * (d * 0.6) + d * d = 2.36 * (d * d) := by ring
    rw [harg, Real.sqrt_mul (by norm_num), Real.sqrt_mul_self hd]

/-- Viewer state for the clipping claims: a cube model occupying
`[0,10]^3` (one mesh under `modelRoot`, bounds as written by
`loadMeshFromGeometry`), then
`setSectionOffset('x', 0.5); setSectionOffset('y', 0.5);
setSectionEnabled('x', true); setSectionEnabled('y', true)`. -/
noncomputable def cubeSectionState : ViewerState :=
  setSectionEnabled .y true (setSectionEnabled .x true
    (setSectionOffset .y (1 / 2) (setSectionOffset .x (1 / 2)
      { initialViewerState 800 600 with
          modelChildren := [⟨[], false⟩]
          sectionBounds := ⟨⟨0, 0, 0⟩, ⟨10, 10, 10⟩, ⟨5, 5, 5⟩⟩ })))

/-- Evaluation: after the cube setup the x section plane is
`{normal (1,0,0), constant -5}`. -/
theorem cubeSectionState_plane_x :
    cubeSectionState.sectionPlanes .x = ⟨⟨1, 0, 0⟩, -5⟩ := by
  norm_num +decide [cubeSectionState, setSectionEnabled, setSectionOffset,
    updateClippingPlanes, initialViewerState, setAxisCoord, axisCoord, lerp,
    Vec3.dot]

/-- Evaluation: after the cube setup the y section plane is
`{normal (0,1,0), constant -5}`. -/
theorem cubeSectionState_plane_y :
    cubeSectionState.sectionPlanes .y = ⟨⟨0, 1, 0⟩, -5⟩ := by
  norm_num +decide [cubeSectionState, setSectionEnabled, setSectionOffset,
    updateClippingPlanes, initialViewerState, setAxisCoord, axisCoord, lerp,
    Vec3.dot]

/-- Evaluation: after the cube setup the model's single mesh material
carries the two enabled planes with `clipIntersection = true`. -/
theorem cubeSectionState_children :
    cubeSectionState.modelChildren = [⟨[.x, .y], true⟩] := by
  norm_num +decide [cubeSectionState, setSectionEnabled, setSectionOffset,
    updateClippingPlanes, activeAxes, initialViewerState, List.filter]

/-- C1 counterexample: with x and y sections enabled at `t = 0.5` on the
`[0,10]^3` cube, the point `(9, 1, 5)` violates the enabled y plane
(signed distance `-4 < 0`), yet it *is* rendered, because
`clipIntersection = true` discards a point only when *all* enabled planes
clip it.  So "rendered only if it satisfies all enabled planes
simultaneously" is false on the code. -/
theorem rendered_point_violating_one_enabled_plane :
    modelRendersPoint cubeSectionState ⟨9, 1, 5⟩ ∧
    ¬ satisfiesAllEnabledPlanes cubeSectionState ⟨9, 1, 5⟩ := by
  constructor
  · intro m hm
    rw [cubeSectionState_children] at hm
    simp only [List.mem_singleton] at hm
    subst hm
    intro hclip
    rcases hclip with ⟨-, hall⟩
    simp only [if_true] at hall
    have hx := hall .x (by simp)
    rw [cubeSectionState_plane_x] at hx
    norm_num [Plane.distanceToPoint, Vec3.dot] at hx
  · intro hall
    have hy := hall .y (by
      norm_num +decide [cubeSectionState, setSectionEnabled, setSectionOffset,
        updateClippingPlanes, initialViewerState])
    rw [cubeSectionState_plane_y] at hy
    norm_num [Plane.distanceToPoint, Vec3.dot] at hy

/-- C1 amended: the code applies the enabled planes with THREE.js
`clipIntersection = true`, so a point is *removed* only when it violates
every enabled plane (the removed region is the intersection of the
clipped half-spaces, and the kept region is the union of the per-plane
kept half-spaces).  For the `[0,10]^3` cube with x and y enabled at
`t = 0.5` this removes exactly the corner where both coordinates are
below their cuts — `x < 5 ∧ y < 5`, 1/4 of the cross-section — not a
slab. -/
theorem cube_sections_remove_exactly_low_corner (p : Vec3) :
    modelRendersPoint cubeSectionState p ↔ ¬ (p.x < 5 ∧ p.y < 5) := by
  constructor
  · intro hrend hcorner
    have hm : (⟨[.x, .y], true⟩ : ModelMesh) ∈ cubeSectionState.modelChildren := by
      rw [cubeSectionState_children]
      simp
    refine hrend _ hm ⟨by simp, ?_⟩
    simp only [if_true]
    intro a ha
    simp only [List.mem_cons, List.mem_singleton, List.not_mem_nil, or_false] at ha
    rcases ha with rfl | rfl
    · rw [cubeSectionState_plane_x]
      simp only [Plane.distanceToPoint, Vec3.dot]
      nlinarith [hcorner.1]
    · rw [cubeSectionState_plane_y]
      simp only [Plane.distanceToPoint, Vec3.dot]
      nlinarith [hcorner.2]
  · intro hout m hm hclip
    rw [cubeSectionState_children] at hm
    simp only [List.mem_singleton] at hm
    subst hm
    rcases hclip with ⟨-, hall⟩
    simp only [if_true] at hall
    have hx := hall .x (by simp)
    have hy := hall .y (by simp)
    rw [cubeSectionState_plane_x] at hx
    rw [cubeSectionState_plane_y] at hy
    simp only [Plane.distanceToPoint, Vec3.dot] at hx hy
    apply hout
    constructor <;> nlinarith

/-- Evaluation: `|(3,4,0)| = 5`. -/
theorem length_340 : Vec3.length ⟨3, 4, 0⟩ = 5 := by
  have h : (3:ℝ) * 3 + 4 * 4 + 0 * 0 = 5 * 5 := by norm_num
  rw [Vec3.length, h]
  exact Real.sqrt_mul_self (by norm_num)

/-- Evaluation: `normalize (3,4,0) = (3/5, 4/5, 0)`. -/
theorem normalize_340 : Vec3.normalize ⟨3, 4, 0⟩ = ⟨3 / 5, 4 / 5, 0⟩ := by
  rw [Vec3.normalize, length_340]
  norm_num [Vec3.smul]

/-- Evaluation: `|(0,0,10)| = 10`. -/
theorem length_0010 : Vec3.length ⟨0, 0, 10⟩ = 10 := by
  have h : (0:ℝ) * 0 + 0 * 0 + 10 * 10 = 10 * 10 := by norm_num
  rw [Vec3.length, h]
  exact Real.sqrt_mul_self (by norm_num)

/-- Evaluation: `normalize (0,0,10) = (0,0,1)`. -/
theorem normalize_0010 : Vec3.normalize ⟨0, 0, 10⟩ = ⟨0, 0, 1⟩ := by
  rw [Vec3.normalize, length_0010]
  norm_num [Vec3.smul]

/-- Evaluation: `|(0,0,3/5)| = 3/5`. -/
theorem length_0035 : Vec3.length ⟨0, 0, 3 / 5⟩ = 3 / 5 := by
  have h : (0:ℝ) * 0 + 0 * 0 + 3 / 5 * (3 / 5) = 3 / 5 * (3 / 5) := by norm_num
  rw [Vec3.length, h]
  exact Real.sqrt_mul_self (by norm_num)

/-- Evaluation: `|4/5| = 4/5`, used to decide the near-vertical test
`0.9 < |dir·up|` of the overlay builder. -/
theorem abs_four_fifths : |(4:ℝ) / 5| = 4 / 5 := by
  rw [abs_of_nonneg]
  norm_num

/-- Evaluation: `normalize (0,0,3/5) = (0,0,1)`. -/
theorem normalize_0035 : Vec3.normalize ⟨0, 0, 3 / 5⟩ = ⟨0, 0, 1⟩ := by
  rw [Vec3.normalize, length_0035]
  norm_num [Vec3.smul]

/-- Base state for the measurement-scale claims: the perspective camera is
placed at `(1.5, 2, 10)`, straight in front of the midpoint of the picked
segment, so the overlay view direction is `(0,0,1)`. -/
noncomputable def measureBaseState : ViewerState :=
  { initialViewerState 800 600 with perspPos := ⟨3 / 2, 2, 10⟩ }

/-- Measurement overlay built at graphics scale 1 from the picks
`(0,0,0)` and `(3,4,0)`. -/
noncomputable def measureState1 : ViewerState :=
  setMeasurementSegment (some ⟨0, 0, 0⟩) (some ⟨3, 4, 0⟩) (some "5.00 mm")
    measureBaseState

/-- The previous state after `setMeasurementGraphicsScale(2)`. -/
noncomputable def measureState2 : ViewerState :=
  setMeasurementGraphicsScale 2 measureState1

/-- The overlay rebuilt by a new `setMeasurementSegment` call at the new
scale 2 — what an actually rescaled overlay looks like. -/
noncomputable def measureState3 : ViewerState :=
  setMeasurementSegment (some ⟨0, 0, 0⟩) (some ⟨3, 4, 0⟩) (some "5.00 mm")
    measureState2

/-- Evaluation: the arrowhead at `p1` built at scale 1 (overlay offset
`5*0.02 + 2 = 2.1` toward the camera, arrow length `max(0.35, 5) = 5`,
half-width 2). -/
theorem measureState1_arrow1 :
    measureState1.measureArrow1
      = some ⟨⟨0, 0, 21 / 10⟩, ⟨3, 4, 41 / 10⟩, ⟨3, 4, 1 / 10⟩, 999⟩ := by
  norm_num [measureState1, measureBaseState, initialViewerState,
    setMeasurementSegment, activeCameraPos, Vec3.sub, Vec3.add, Vec3.smul,
    Vec3.dot, Vec3.cross, length_340, normalize_340, normalize_0010,
    normalize_0035, abs_four_fifths, max_def, min_def]

/-- Evaluation: the stored graphics scale after
`setMeasurementGraphicsScale(2)` is 2 (the clamp of 2 to `[0.1, 4]`). -/
theorem measureState2_scale : measureState2.measureGraphicsScale = 2 := by
  norm_num [measureState2, setMeasurementGraphicsScale, max_def, min_def]

/-- Evaluation: the arrowhead at `p1` rebuilt at scale 2 (overlay offset
`5*0.02 + 4 = 4.1`, arrow length `max(0.35, 10) = 10`, half-width 4). -/
theorem measureState3_arrow1 :
    measureState3.measureArrow1
      = some ⟨⟨0, 0, 41 / 10⟩, ⟨6, 8, 81 / 10⟩, ⟨6, 8, 1 / 10⟩, 999⟩ := by
  norm_num [measureState3, measureState2, measureState1, measureBaseState,
    initialViewerState, setMeasurementSegment, setMeasurementGraphicsScale,
    activeCameraPos, Vec3.sub, Vec3.add, Vec3.smul,
    Vec3.dot, Vec3.cross, length_340, normalize_340, normalize_0010,
    normalize_0035, abs_four_fifths, max_def, min_def]

/-- C8 counterexample: while the scale-1 overlay is displayed,
`setMeasurementGraphicsScale(2)` stores the clamped scale but leaves the
displayed arrowhead geometry exactly as it was; a genuinely rescaled
arrowhead (the one the next `setMeasurementSegment` builds at scale 2)
differs from it.  So the call does not rescale the arrowhead size or
offset magnitudes of the currently-displayed overlay. -/
theorem setScale_leaves_displayed_arrowheads_stale :
    measureState2.measureGraphicsScale = 2 ∧
    measureState2.measureArrow1 = measureState1.measureArrow1 ∧
    measureState3.measureArrow1 ≠ measureState1.measureArrow1 := by
  refine ⟨measureState2_scale, rfl, ?_⟩
  rw [measureState3_arrow1, measureState1_arrow1]
  norm_num

/-- C8 amended: `setMeasurementGraphicsScale(scale)` stores the value
clamped to `[0.1, 4]` and rescales only the label sprite of the
currently-displayed overlay; the displayed line and both arrowheads (and
with them the arrowhead size and offset magnitudes) are left unchanged
and adopt the new scale only at the next `setMeasurementSegment` call.
Reapplying the same scale is idempotent. -/
theorem setScale_clamps_and_rescales_label_only (s : ViewerState) (scale : ℝ) :
    (setMeasurementGraphicsScale scale s).measureGraphicsScale
        = max 0.1 (min scale 4) ∧
    (setMeasurementGraphicsScale scale s).measureLabel
        = s.measureLabel.map (fun l =>
            { l with scaleX := 0.4 * max 0.1 (min scale 4)
                     scaleY := 0.2 * max 0.1 (min scale 4) }) ∧
    (setMeasurementGraphicsScale scale s).measureLine = s.measureLine ∧
    (setMeasurementGraphicsScale scale s).measureArrow1 = s.measureArrow1 ∧
    (setMeasurementGraphicsScale scale s).measureArrow2 = s.measureArrow2 ∧
    setMeasurementGraphicsScale scale (setMeasurementGraphicsScale scale s)
        = setMeasurementGraphicsScale scale s := by
  have hclamp : max 0.1 (min (max 0.1 (min scale 4)) 4) = max 0.1 (min scale 4) := by
    have hle : max 0.1 (min scale 4) ≤ 4 :=
      max_le (by norm_num) (min_le_right _ _)
    rw [min_eq_left hle]
    exact max_eq_right (le_max_left _ _)
  refine ⟨rfl, rfl, rfl, rfl, rfl, ?_⟩
  cases hl : s.measureLabel <;>
    simp [setMeasurementGraphicsScale, hclamp, hl]

end CadViewer
